import Mathlib

/-!
Verification of the `jupiter-amm-interface` crate: a shallow embedding of its
data model (`src/lib.rs`, `src/swap.rs`) and proofs of the specified
properties.  Machine integers (`u64`, `i64`, `u8`, `u32`) are embedded as
`Nat` / `Int`; no claim exercises overflow, so no modular reduction is needed.
Fallible Rust code (`Result`, `Option`) is embedded as `Except String` /
`Option`; `anyhow::Error` values are embedded as their message strings.
-/

namespace JupAmm

/-- Embeds `solana_sdk::pubkey::Pubkey`: a fixed-size 32-byte identifier.  Embedded
as a list of byte values; equality is byte equality, as in the source. -/
structure Pubkey where
  bytes : List Nat
deriving DecidableEq, Repr

/-- Well-formedness of an embedded `Pubkey`: 32 bytes, each below 256. -/
def Pubkey.wf (k : Pubkey) : Prop :=
  k.bytes.length = 32 ∧ ∀ b ∈ k.bytes, b < 256

instance (k : Pubkey) : Decidable k.wf := by
  unfold Pubkey.wf; infer_instance

/-- Embeds `serde_json::Value`: the loosely-typed per-venue configuration payload.
No operation of this crate inspects its structure (it is parsed only inside
venue implementations), so it is embedded as an opaque token. -/
structure Value where
  raw : String
deriving DecidableEq, Repr

/-- Embeds `solana_sdk::account::Account`: owner key, raw byte payload, lamport
balance, executable flag, rent epoch. -/
structure Account where
  lamports : Nat
  data : List Nat
  owner : Pubkey
  executable : Bool
  rent_epoch : Nat
deriving DecidableEq, Repr

/-- Embeds `KeyedAccount` (src/lib.rs): an account paired with its address and
optional venue-specific params. -/
structure KeyedAccount where
  key : Pubkey
  account : Account
  params : Option Value
deriving DecidableEq, Repr

/-- Embeds `SwapMode` (src/lib.rs). -/
inductive SwapMode where
  | ExactIn
  | ExactOut
deriving DecidableEq, Repr

/-- Embeds `impl FromStr for SwapMode` (src/lib.rs lines 27-37): `"ExactIn"` and
`"ExactOut"` parse; anything else yields the error
`"{s} is not a valid SwapMode"`. -/
def SwapMode.fromStr (s : String) : Except String SwapMode :=
  match s with
  | "ExactIn" => Except.ok SwapMode.ExactIn
  | "ExactOut" => Except.ok SwapMode.ExactOut
  | _ => Except.error (s ++ " is not a valid SwapMode")

/-- Embeds `QuoteParams` (src/lib.rs lines 39-45): exactly the four fields below. -/
structure QuoteParams where
  amount : Nat
  input_mint : Pubkey
  output_mint : Pubkey
  swap_mode : SwapMode
deriving DecidableEq, Repr

/-- The field names of `QuoteParams`, in declaration order, transcribed from
the struct definition at src/lib.rs lines 39-45. -/
def QuoteParams.fieldNames : List String :=
  ["amount", "input_mint", "output_mint", "swap_mode"]

/-- Embeds `rust_decimal::Decimal`: a scaled integer (96-bit mantissa plus scale in
the source; no claim computes with it, so plain `Int`/`Nat` suffice). -/
structure Decimal where
  mantissa : Int
  scale : Nat
deriving DecidableEq, Repr

/-- Embeds `Quote` (src/lib.rs lines 47-56). -/
structure Quote where
  min_in_amount : Option Nat
  min_out_amount : Option Nat
  in_amount : Nat
  out_amount : Nat
  fee_amount : Nat
  fee_mint : Pubkey
  fee_pct : Decimal
deriving DecidableEq, Repr

/-- Embeds `Market` (src/lib.rs lines 216-225): the reduced projection of a
`KeyedAccount`. -/
structure Market where
  pubkey : Pubkey
  owner : Pubkey
  params : Option Value
deriving DecidableEq, Repr

/-- Embeds `impl From<KeyedAccount> for Market` (src/lib.rs lines 227-241). -/
def Market.fromKeyedAccount (ka : KeyedAccount) : Market :=
  { pubkey := ka.key
    owner := ka.account.owner
    params := ka.params }

/-- Embeds `solana_sdk::clock::Clock`: a point-in-time reading of on-chain time
(field order as in the sdk struct). -/
structure Clock where
  slot : Nat
  epoch_start_timestamp : Int
  epoch : Nat
  leader_schedule_epoch : Nat
  unix_timestamp : Int
deriving DecidableEq, Repr

/-- Embeds `ClockRef` (src/lib.rs lines 290-299): five independently-updated cells.
The `Arc<Atomic*>` wrappers are embedded as plain cells; the claims checked
here are sequential, so only the stored values are modelled. -/
structure ClockRef where
  slot : Nat
  epoch_start_timestamp : Int
  epoch : Nat
  leader_schedule_epoch : Nat
  unix_timestamp : Int
deriving DecidableEq, Repr

/-- Embeds `ClockRef::update` (src/lib.rs lines 301-318): stores every field of the
given clock reading into the corresponding cell.  The source mutates through
atomics; here the updated state is returned. -/
def ClockRef.update (_r : ClockRef) (clock : Clock) : ClockRef :=
  { epoch := clock.epoch
    slot := clock.slot
    unix_timestamp := clock.unix_timestamp
    epoch_start_timestamp := clock.epoch_start_timestamp
    leader_schedule_epoch := clock.leader_schedule_epoch }

/-- Embeds `impl From<Clock> for ClockRef` (src/lib.rs lines 320-330). -/
def ClockRef.fromClock (clock : Clock) : ClockRef :=
  { epoch := clock.epoch
    epoch_start_timestamp := clock.epoch_start_timestamp
    leader_schedule_epoch := clock.leader_schedule_epoch
    slot := clock.slot
    unix_timestamp := clock.unix_timestamp }

/-! ### Transport encoding (external collaborators of src/lib.rs)

`UiAccount`, its base64 encoding, and the canonical string form of a
`Pubkey` live in external crates (`solana_account_decoder`, `solana_sdk`),
not in this repository.  They are modelled from the spec: the account bytes
are base64-encoded (standard alphabet with `=` padding, implemented
concretely below), and a public key serializes to an injective canonical
string form (base58 in the real crate; modelled as one character per byte,
which preserves exactly the properties the spec relies on: injectivity and
losslessness of parse-after-print). -/

/-- The standard base64 alphabet. -/
def b64Alphabet : List Char :=
  "ABCDEFGHIJKLMNOPQRSTUVWXYZabcdefghijklmnopqrstuvwxyz0123456789+/".toList

/-- Character for a sextet value. -/
def b64c (n : Nat) : Char := b64Alphabet.getD n 'A'

/-- Sextet value of a character (numeric inverse of `b64c` on `[0,64)`). -/
def b64v (c : Char) : Nat := b64Alphabet.indexOf c

/-- Modelled from the spec: standard base64 encoding of a byte list
(three bytes become four alphabet characters; a final group of one or two
bytes is padded with `=`). -/
def base64EncodeAux : List Nat → List Char
  | [] => []
  | [a] => [b64c (a / 4), b64c (a % 4 * 16), '=', '=']
  | [a, b] => [b64c (a / 4), b64c (a % 4 * 16 + b / 16), b64c (b % 16 * 4), '=']
  | a :: b :: c :: rest =>
      b64c (a / 4) :: b64c (a % 4 * 16 + b / 16) :: b64c (b % 16 * 4 + c / 64)
        :: b64c (c % 64) :: base64EncodeAux rest

/-- Modelled from the spec: standard base64 decoding, inverse of
`base64EncodeAux` on its image; `none` on a length that is not a multiple
of four. -/
def base64DecodeAux : List Char → Option (List Nat)
  | [] => some []
  | c1 :: c2 :: c3 :: c4 :: rest =>
      if c3 = '=' ∧ c4 = '=' ∧ rest = [] then
        some [b64v c1 * 4 + b64v c2 / 16]
      else if c4 = '=' ∧ rest = [] then
        some [b64v c1 * 4 + b64v c2 / 16, b64v c2 % 16 * 16 + b64v c3 / 4]
      else
        match base64DecodeAux rest with
        | some tail =>
            some ((b64v c1 * 4 + b64v c2 / 16) :: (b64v c2 % 16 * 16 + b64v c3 / 4)
              :: (b64v c3 % 4 * 64 + b64v c4) :: tail)
        | none => none
  | _ => none

/-- Base64 encoding as a string. -/
def base64Encode (l : List Nat) : String := String.mk (base64EncodeAux l)

/-- Base64 decoding of a string. -/
def base64Decode (s : String) : Option (List Nat) := base64DecodeAux s.toList

/-- Modelled from the spec: the canonical string form of a `Pubkey`
(`Pubkey::to_string`, base58 in the real crate), modelled as one character
per byte. -/
def pubkeyToString (k : Pubkey) : String := String.mk (k.bytes.map Char.ofNat)

/-- Modelled from the spec: `Pubkey::from_str`, the parse of the canonical
string form; fails unless the string denotes exactly 32 bytes. -/
def pubkeyFromStr (s : String) : Except String Pubkey :=
  let ns := s.toList.map Char.toNat
  if ns.length = 32 then Except.ok { bytes := ns }
  else Except.error "Invalid pubkey string"

/-- Modelled from the spec: `solana_account_decoder::UiAccount` restricted
to the `Base64` data encoding used by this crate — the account with its
data as a base64 string and its owner as a canonical key string. -/
structure UiAccount where
  lamports : Nat
  data : String
  owner : String
  executable : Bool
  rent_epoch : Nat
  space : Option Nat
deriving DecidableEq, Repr

/-- Modelled from the spec: `UiAccount::encode(key, account, Base64, None,
None)` — base64-encodes the data, renders the owner. -/
def UiAccount.encode (account : Account) : UiAccount :=
  { lamports := account.lamports
    data := base64Encode account.data
    owner := pubkeyToString account.owner
    executable := account.executable
    rent_epoch := account.rent_epoch
    space := some account.data.length }

/-- Modelled from the spec: `UiAccount::decode` — decodes the base64 data
and parses the owner back into an `Account`; `none` if either fails. -/
def UiAccount.decode (u : UiAccount) : Option Account :=
  match base64Decode u.data, pubkeyFromStr u.owner with
  | some data, Except.ok owner =>
      some { lamports := u.lamports
             data := data
             owner := owner
             executable := u.executable
             rent_epoch := u.rent_epoch }
  | _, _ => none

/-- Embeds `KeyedUiAccount` (src/lib.rs lines 243-250). -/
structure KeyedUiAccount where
  pubkey : String
  ui_account : UiAccount
  params : Option Value
deriving DecidableEq, Repr

/-- Embeds `impl From<KeyedAccount> for KeyedUiAccount` (src/lib.rs lines 252-267). -/
def KeyedUiAccount.fromKeyedAccount (ka : KeyedAccount) : KeyedUiAccount :=
  { pubkey := pubkeyToString ka.key
    ui_account := UiAccount.encode ka.account
    params := ka.params }

/-- Embeds `impl TryFrom<KeyedUiAccount> for KeyedAccount` (src/lib.rs lines
269-288).  In the source a decode failure panics
(`"Failed to decode ui_account for {pubkey}"`); the panic is embedded as an
error value carrying that message, a path proved unreachable for encoded
inputs. -/
def KeyedAccount.tryFromKeyedUiAccount (kua : KeyedUiAccount) :
    Except String KeyedAccount :=
  match kua.ui_account.decode with
  | none => Except.error ("Failed to decode ui_account for " ++ kua.pubkey)
  | some account =>
      match pubkeyFromStr kua.pubkey with
      | Except.error e => Except.error e
      | Except.ok key => Except.ok { key := key, account := account, params := kua.params }

/-- Well-formedness of an embedded `KeyedAccount`: both keys are 32 valid
bytes and the account data is made of bytes. -/
def KeyedAccount.wf (ka : KeyedAccount) : Prop :=
  ka.key.wf ∧ ka.account.owner.wf ∧ ∀ b ∈ ka.account.data, b < 256

instance (ka : KeyedAccount) : Decidable ka.wf := by
  unfold KeyedAccount.wf; infer_instance

/-- Decoding a sextet character recovers the sextet. -/
theorem b64v_b64c : ∀ n, n < 64 → b64v (b64c n) = n := by decide

/-- No sextet value encodes to the padding character. -/
theorem b64c_ne_pad : ∀ n, n < 64 → b64c n ≠ '=' := by decide

/-- Lemma: `Char.toNat` inverts `Char.ofNat` on byte values. -/
theorem char_toNat_ofNat {n : Nat} (h : n < 256) : (Char.ofNat n).toNat = n := by
  have hv : n.isValidChar := Or.inl (by omega)
  rw [Char.ofNat, dif_pos hv]
  rfl

/-- Base64 decoding inverts base64 encoding on byte lists. -/
theorem base64_decode_encode : ∀ l : List Nat, (∀ x ∈ l, x < 256) →
    base64DecodeAux (base64EncodeAux l) = some l
  | [], _ => rfl
  | [a], h => by
      have ha : a < 256 := h a (by simp)
      simp only [base64EncodeAux, base64DecodeAux]
      rw [if_pos (by simp), b64v_b64c _ (by omega), b64v_b64c _ (by omega)]
      simp only [Option.some.injEq, List.cons.injEq, and_true]
      omega
  | [a, b], h => by
      have ha : a < 256 := h a (by simp)
      have hb : b < 256 := h b (by simp)
      simp only [base64EncodeAux, base64DecodeAux]
      rw [if_neg fun hp => b64c_ne_pad _ (by omega) hp.1, if_pos (by simp)]
      rw [b64v_b64c _ (by omega), b64v_b64c _ (by omega), b64v_b64c _ (by omega)]
      simp only [Option.some.injEq, List.cons.injEq, and_true]
      omega
  | a :: b :: c :: rest, h => by
      have ha : a < 256 := h a (by simp)
      have hb : b < 256 := h b (by simp)
      have hc : c < 256 := h c (by simp)
      have ih := base64_decode_encode rest fun x hx => h x (by simp [hx])
      simp only [base64EncodeAux, base64DecodeAux]
      rw [if_neg fun hp => b64c_ne_pad _ (by omega) hp.1,
        if_neg fun hp => b64c_ne_pad _ (by omega) hp.1, ih]
      rw [b64v_b64c _ (by omega), b64v_b64c _ (by omega), b64v_b64c _ (by omega),
        b64v_b64c _ (by omega)]
      simp only [Option.some.injEq, List.cons.injEq, and_true]
      refine ⟨by omega, by omega, by omega⟩

/-- Parsing the canonical string form of a well-formed key recovers it. -/
theorem pubkeyFromStr_pubkeyToString (k : Pubkey) (h : k.wf) :
    pubkeyFromStr (pubkeyToString k) = Except.ok k := by
  obtain ⟨hlen, hbytes⟩ := h
  unfold pubkeyFromStr pubkeyToString
  have htl : (String.mk (k.bytes.map Char.ofNat)).toList = k.bytes.map Char.ofNat := rfl
  rw [htl, List.map_map]
  have hmap : k.bytes.map (Char.toNat ∘ Char.ofNat) = k.bytes :=
    (List.map_congr_left fun b hb => char_toNat_ofNat (hbytes b hb)).trans
      (List.map_id k.bytes)
  rw [hmap, if_pos hlen]

/-- The transport round trip: encoding a well-formed `KeyedAccount` and
converting back recovers it exactly. -/
theorem keyedAccount_roundTrip (ka : KeyedAccount) (h : ka.wf) :
    KeyedAccount.tryFromKeyedUiAccount (KeyedUiAccount.fromKeyedAccount ka) =
      Except.ok ka := by
  obtain ⟨hkey, howner, hdata⟩ := h
  unfold KeyedAccount.tryFromKeyedUiAccount KeyedUiAccount.fromKeyedAccount
  simp only [UiAccount.encode, UiAccount.decode, base64Decode, base64Encode]
  have htl : (String.mk (base64EncodeAux ka.account.data)).toList =
      base64EncodeAux ka.account.data := rfl
  rw [htl, base64_decode_encode _ hdata, pubkeyFromStr_pubkeyToString _ howner,
    pubkeyFromStr_pubkeyToString _ hkey]

/-- Embeds `AccountMap` (src/lib.rs line 97): keyed lookup of accounts by public
key.  The `HashMap` is embedded as an association list; `get` is lookup by
key equality, which is the map's observable contract. -/
abbrev AccountMap := List (Pubkey × Account)

/-- Embeds `HashMap::get` on the account map. -/
def AccountMap.get (account_map : AccountMap) (address : Pubkey) : Option Account :=
  List.lookup address account_map

/-- Embeds `try_get_account_data` (src/lib.rs lines 99-104). -/
def try_get_account_data (account_map : AccountMap) (address : Pubkey) :
    Except String (List Nat) :=
  match AccountMap.get account_map address with
  | some account => Except.ok account.data
  | none => Except.error ("Could not find address: " ++ pubkeyToString address)

/-- Embeds `try_get_account_data_and_owner` (src/lib.rs lines 106-114). -/
def try_get_account_data_and_owner (account_map : AccountMap) (address : Pubkey) :
    Except String (List Nat × Pubkey) :=
  match AccountMap.get account_map address with
  | some account => Except.ok (account.data, account.owner)
  | none => Except.error ("Could not find address: " ++ pubkeyToString address)

/-! ### Swap protocol (src/swap.rs) -/

/-- Embeds `Side` (src/swap.rs lines 3-7). -/
inductive Side where
  | Bid
  | Ask
deriving DecidableEq, Repr

/-- Embeds `AccountsType` (src/swap.rs lines 194-205). -/
inductive AccountsType where
  | TransferHookA
  | TransferHookB
  | TickArray
deriving DecidableEq, Repr

/-- Embeds `RemainingAccountsSlice` (src/swap.rs lines 207-211). -/
structure RemainingAccountsSlice where
  accounts_type : AccountsType
  length : Nat
deriving DecidableEq, Repr

/-- Embeds `RemainingAccountsInfo` (src/swap.rs lines 213-216). -/
structure RemainingAccountsInfo where
  slices : List RemainingAccountsSlice
deriving DecidableEq, Repr

/-- Embeds `CandidateSwap` (src/swap.rs lines 218-231): the candidate subset. -/
inductive CandidateSwap where
  | HumidiFi (swap_id : Nat) (is_base_to_quote : Bool)
  | TesseraV (side : Side)
  | HumidiFiV2 (swap_id : Nat) (is_base_to_quote : Bool)
deriving DecidableEq, Repr

/-! Rust `{:?}` (derived `Debug`) rendering of the swap types, transcribed
from the derive output format: a unit variant prints its name, a struct
variant prints `Name \x7b field: value, .. \x7d`, `Option` prints
`None`/`Some(..)`, `Vec` prints `[..]`, `bool` prints `true`/`false` and
integers print in decimal. -/

/-- Rust `Debug` rendering of a `bool`. -/
def fmtBool (b : Bool) : String := if b then "true" else "false"

/-- Rust `Debug` rendering of a `Vec`, given renderings of its elements. -/
def fmtList (xs : List String) : String := "[" ++ String.intercalate ", " xs ++ "]"

/-- Rust `Debug` rendering of an `Option`, given a rendering of the content. -/
def fmtOption : Option String → String
  | none => "None"
  | some s => "Some(" ++ s ++ ")"

/-- Rust `Debug` rendering of `Side`. -/
def Side.debugFmt : Side → String
  | Side.Bid => "Bid"
  | Side.Ask => "Ask"

/-- Rust `Debug` rendering of `AccountsType`. -/
def AccountsType.debugFmt : AccountsType → String
  | AccountsType.TransferHookA => "TransferHookA"
  | AccountsType.TransferHookB => "TransferHookB"
  | AccountsType.TickArray => "TickArray"

/-- Rust `Debug` rendering of `RemainingAccountsSlice`. -/
def RemainingAccountsSlice.debugFmt (s : RemainingAccountsSlice) : String :=
  "RemainingAccountsSlice \x7b accounts_type: " ++ s.accounts_type.debugFmt
    ++ ", length: " ++ toString s.length ++ " \x7d"

/-- Rust `Debug` rendering of `RemainingAccountsInfo`. -/
def RemainingAccountsInfo.debugFmt (i : RemainingAccountsInfo) : String :=
  "RemainingAccountsInfo \x7b slices: "
    ++ fmtList (i.slices.map RemainingAccountsSlice.debugFmt) ++ " \x7d"

/-- Rust `Debug` rendering of `CandidateSwap`. -/
def CandidateSwap.debugFmt : CandidateSwap → String
  | CandidateSwap.HumidiFi swap_id is_base_to_quote =>
      "HumidiFi \x7b swap_id: " ++ toString swap_id ++ ", is_base_to_quote: "
        ++ fmtBool is_base_to_quote ++ " \x7d"
  | CandidateSwap.TesseraV side =>
      "TesseraV \x7b side: " ++ side.debugFmt ++ " \x7d"
  | CandidateSwap.HumidiFiV2 swap_id is_base_to_quote =>
      "HumidiFiV2 \x7b swap_id: " ++ toString swap_id ++ ", is_base_to_quote: "
        ++ fmtBool is_base_to_quote ++ " \x7d"

/-- Embeds `Swap` (src/swap.rs lines 9-181): one variant per supported on-chain
program instruction shape, in source order; each variant carries only the
extra data that instruction needs. -/
inductive Swap where
  | Saber
  | SaberAddDecimalsDeposit
  | SaberAddDecimalsWithdraw
  | TokenSwap
  | Raydium
  | Crema (a_to_b : Bool)
  | Mercurial
  | Aldrin (side : Side)
  | AldrinV2 (side : Side)
  | Whirlpool (a_to_b : Bool)
  | Invariant (x_to_y : Bool)
  | Meteora
  | MarcoPolo (x_to_y : Bool)
  | LifinityV2
  | RaydiumClmm
  | Phoenix (side : Side)
  | TokenSwapV2
  | HeliumTreasuryManagementRedeemV0
  | StakeDexStakeWrappedSol
  | MeteoraDlmm
  | OpenBookV2 (side : Side)
  | RaydiumClmmV2
  | StakeDexPrefundWithdrawStakeAndDepositStake (bridge_stake_seed : Nat)
  | SanctumS (src_lst_value_calc_accs : Nat) (dst_lst_value_calc_accs : Nat)
      (src_lst_index : Nat) (dst_lst_index : Nat)
  | SanctumSAddLiquidity (lst_value_calc_accs : Nat) (lst_index : Nat)
  | SanctumSRemoveLiquidity (lst_value_calc_accs : Nat) (lst_index : Nat)
  | RaydiumCP
  | WhirlpoolSwapV2 (a_to_b : Bool) (remaining_accounts_info : Option RemainingAccountsInfo)
  | OneIntro
  | PerpsV2
  | PerpsV2AddLiquidity
  | PerpsV2RemoveLiquidity
  | MoonshotWrappedBuy
  | MoonshotWrappedSell
  | StabbleStableSwap
  | StabbleWeightedSwap
  | Obric (x_to_y : Bool)
  | SolFi (is_quote_to_base : Bool)
  | SolayerDelegateNoInit
  | SolayerUndelegateNoInit
  | ZeroFi
  | StakeDexWithdrawWrappedSol
  | VirtualsBuy
  | VirtualsSell
  | Perena (in_index : Nat) (out_index : Nat)
  | Gamma
  | MeteoraDlmmSwapV2 (remaining_accounts_info : RemainingAccountsInfo)
  | Woofi
  | MeteoraDammV2
  | StabbleStableSwapV2
  | StabbleWeightedSwapV2
  | RaydiumLaunchlabBuy (share_fee_rate : Nat)
  | RaydiumLaunchlabSell (share_fee_rate : Nat)
  | BoopdotfunWrappedBuy
  | BoopdotfunWrappedSell
  | Plasma (side : Side)
  | GoonFi (is_bid : Bool) (blacklist_bump : Nat)
  | HumidiFi (swap_id : Nat) (is_base_to_quote : Bool)
  | MeteoraDynamicBondingCurveSwapWithRemainingAccounts
  | TesseraV (side : Side)
  | Heaven (a_to_b : Bool)
  | SolFiV2 (is_quote_to_base : Bool)
  | Aquifer
  | PumpWrappedBuyV3
  | PumpWrappedSellV3
  | PumpSwapBuyV3
  | PumpSwapSellV3
  | JupiterLendDeposit
  | JupiterLendRedeem
  | DefiTuna (a_to_b : Bool) (remaining_accounts_info : Option RemainingAccountsInfo)
  | AlphaQ (a_to_b : Bool)
  | RaydiumV2
  | SarosDlmm (swap_for_y : Bool)
  | Futarchy (side : Side)
  | MeteoraDammV2WithRemainingAccounts
  | Obsidian
  | WhaleStreet (side : Side)
  | DynamicV1 (candidate_swaps : List CandidateSwap)
  | PumpWrappedBuyV4
  | PumpWrappedSellV4
  | CarrotIssue
  | CarrotRedeem
  | Manifest (side : Side)
  | BisonFi (a_to_b : Bool)
  | HumidiFiV2 (swap_id : Nat) (is_base_to_quote : Bool)
  | PerenaStar (is_mint : Bool)
  | GoonFiV2 (is_bid : Bool)

/-- The variant name of a `Swap` value (the head of its `Debug` rendering). -/
def Swap.variantName : Swap → String
  | Swap.Saber => "Saber"
  | Swap.SaberAddDecimalsDeposit => "SaberAddDecimalsDeposit"
  | Swap.SaberAddDecimalsWithdraw => "SaberAddDecimalsWithdraw"
  | Swap.TokenSwap => "TokenSwap"
  | Swap.Raydium => "Raydium"
  | Swap.Crema _ => "Crema"
  | Swap.Mercurial => "Mercurial"
  | Swap.Aldrin _ => "Aldrin"
  | Swap.AldrinV2 _ => "AldrinV2"
  | Swap.Whirlpool _ => "Whirlpool"
  | Swap.Invariant _ => "Invariant"
  | Swap.Meteora => "Meteora"
  | Swap.MarcoPolo _ => "MarcoPolo"
  | Swap.LifinityV2 => "LifinityV2"
  | Swap.RaydiumClmm => "RaydiumClmm"
  | Swap.Phoenix _ => "Phoenix"
  | Swap.TokenSwapV2 => "TokenSwapV2"
  | Swap.HeliumTreasuryManagementRedeemV0 => "HeliumTreasuryManagementRedeemV0"
  | Swap.StakeDexStakeWrappedSol => "StakeDexStakeWrappedSol"
  | Swap.MeteoraDlmm => "MeteoraDlmm"
  | Swap.OpenBookV2 _ => "OpenBookV2"
  | Swap.RaydiumClmmV2 => "RaydiumClmmV2"
  | Swap.StakeDexPrefundWithdrawStakeAndDepositStake _ =>
      "StakeDexPrefundWithdrawStakeAndDepositStake"
  | Swap.SanctumS _ _ _ _ => "SanctumS"
  | Swap.SanctumSAddLiquidity _ _ => "SanctumSAddLiquidity"
  | Swap.SanctumSRemoveLiquidity _ _ => "SanctumSRemoveLiquidity"
  | Swap.RaydiumCP => "RaydiumCP"
  | Swap.WhirlpoolSwapV2 _ _ => "WhirlpoolSwapV2"
  | Swap.OneIntro => "OneIntro"
  | Swap.PerpsV2 => "PerpsV2"
  | Swap.PerpsV2AddLiquidity => "PerpsV2AddLiquidity"
  | Swap.PerpsV2RemoveLiquidity => "PerpsV2RemoveLiquidity"
  | Swap.MoonshotWrappedBuy => "MoonshotWrappedBuy"
  | Swap.MoonshotWrappedSell => "MoonshotWrappedSell"
  | Swap.StabbleStableSwap => "StabbleStableSwap"
  | Swap.StabbleWeightedSwap => "StabbleWeightedSwap"
  | Swap.Obric _ => "Obric"
  | Swap.SolFi _ => "SolFi"
  | Swap.SolayerDelegateNoInit => "SolayerDelegateNoInit"
  | Swap.SolayerUndelegateNoInit => "SolayerUndelegateNoInit"
  | Swap.ZeroFi => "ZeroFi"
  | Swap.StakeDexWithdrawWrappedSol => "StakeDexWithdrawWrappedSol"
  | Swap.VirtualsBuy => "VirtualsBuy"
  | Swap.VirtualsSell => "VirtualsSell"
  | Swap.Perena _ _ => "Perena"
  | Swap.Gamma => "Gamma"
  | Swap.MeteoraDlmmSwapV2 _ => "MeteoraDlmmSwapV2"
  | Swap.Woofi => "Woofi"
  | Swap.MeteoraDammV2 => "MeteoraDammV2"
  | Swap.StabbleStableSwapV2 => "StabbleStableSwapV2"
  | Swap.StabbleWeightedSwapV2 => "StabbleWeightedSwapV2"
  | Swap.RaydiumLaunchlabBuy _ => "RaydiumLaunchlabBuy"
  | Swap.RaydiumLaunchlabSell _ => "RaydiumLaunchlabSell"
  | Swap.BoopdotfunWrappedBuy => "BoopdotfunWrappedBuy"
  | Swap.BoopdotfunWrappedSell => "BoopdotfunWrappedSell"
  | Swap.Plasma _ => "Plasma"
  | Swap.GoonFi _ _ => "GoonFi"
  | Swap.HumidiFi _ _ => "HumidiFi"
  | Swap.MeteoraDynamicBondingCurveSwapWithRemainingAccounts =>
      "MeteoraDynamicBondingCurveSwapWithRemainingAccounts"
  | Swap.TesseraV _ => "TesseraV"
  | Swap.Heaven _ => "Heaven"
  | Swap.SolFiV2 _ => "SolFiV2"
  | Swap.Aquifer => "Aquifer"
  | Swap.PumpWrappedBuyV3 => "PumpWrappedBuyV3"
  | Swap.PumpWrappedSellV3 => "PumpWrappedSellV3"
  | Swap.PumpSwapBuyV3 => "PumpSwapBuyV3"
  | Swap.PumpSwapSellV3 => "PumpSwapSellV3"
  | Swap.JupiterLendDeposit => "JupiterLendDeposit"
  | Swap.JupiterLendRedeem => "JupiterLendRedeem"
  | Swap.DefiTuna _ _ => "DefiTuna"
  | Swap.AlphaQ _ => "AlphaQ"
  | Swap.RaydiumV2 => "RaydiumV2"
  | Swap.SarosDlmm _ => "SarosDlmm"
  | Swap.Futarchy _ => "Futarchy"
  | Swap.MeteoraDammV2WithRemainingAccounts => "MeteoraDammV2WithRemainingAccounts"
  | Swap.Obsidian => "Obsidian"
  | Swap.WhaleStreet _ => "WhaleStreet"
  | Swap.DynamicV1 _ => "DynamicV1"
  | Swap.PumpWrappedBuyV4 => "PumpWrappedBuyV4"
  | Swap.PumpWrappedSellV4 => "PumpWrappedSellV4"
  | Swap.CarrotIssue => "CarrotIssue"
  | Swap.CarrotRedeem => "CarrotRedeem"
  | Swap.Manifest _ => "Manifest"
  | Swap.BisonFi _ => "BisonFi"
  | Swap.HumidiFiV2 _ _ => "HumidiFiV2"
  | Swap.PerenaStar _ => "PerenaStar"
  | Swap.GoonFiV2 _ => "GoonFiV2"

/-- The payload part of the `Debug` rendering of a `Swap` value: empty for a
unit variant, `" \x7b field: value, .. \x7d"` for a struct variant. -/
def Swap.payloadFmt : Swap → String
  | Swap.Crema a_to_b => " \x7b a_to_b: " ++ fmtBool a_to_b ++ " \x7d"
  | Swap.Aldrin side => " \x7b side: " ++ side.debugFmt ++ " \x7d"
  | Swap.AldrinV2 side => " \x7b side: " ++ side.debugFmt ++ " \x7d"
  | Swap.Whirlpool a_to_b => " \x7b a_to_b: " ++ fmtBool a_to_b ++ " \x7d"
  | Swap.Invariant x_to_y => " \x7b x_to_y: " ++ fmtBool x_to_y ++ " \x7d"
  | Swap.MarcoPolo x_to_y => " \x7b x_to_y: " ++ fmtBool x_to_y ++ " \x7d"
  | Swap.Phoenix side => " \x7b side: " ++ side.debugFmt ++ " \x7d"
  | Swap.OpenBookV2 side => " \x7b side: " ++ side.debugFmt ++ " \x7d"
  | Swap.StakeDexPrefundWithdrawStakeAndDepositStake bridge_stake_seed =>
      " \x7b bridge_stake_seed: " ++ toString bridge_stake_seed ++ " \x7d"
  | Swap.SanctumS s d si di =>
      " \x7b src_lst_value_calc_accs: " ++ toString s
        ++ ", dst_lst_value_calc_accs: " ++ toString d
        ++ ", src_lst_index: " ++ toString si
        ++ ", dst_lst_index: " ++ toString di ++ " \x7d"
  | Swap.SanctumSAddLiquidity l li =>
      " \x7b lst_value_calc_accs: " ++ toString l
        ++ ", lst_index: " ++ toString li ++ " \x7d"
  | Swap.SanctumSRemoveLiquidity l li =>
      " \x7b lst_value_calc_accs: " ++ toString l
        ++ ", lst_index: " ++ toString li ++ " \x7d"
  | Swap.WhirlpoolSwapV2 a_to_b remaining_accounts_info =>
      " \x7b a_to_b: " ++ fmtBool a_to_b ++ ", remaining_accounts_info: "
        ++ fmtOption (remaining_accounts_info.map RemainingAccountsInfo.debugFmt)
        ++ " \x7d"
  | Swap.Obric x_to_y => " \x7b x_to_y: " ++ fmtBool x_to_y ++ " \x7d"
  | Swap.SolFi is_quote_to_base =>
      " \x7b is_quote_to_base: " ++ fmtBool is_quote_to_base ++ " \x7d"
  | Swap.Perena in_index out_index =>
      " \x7b in_index: " ++ toString in_index
        ++ ", out_index: " ++ toString out_index ++ " \x7d"
  | Swap.MeteoraDlmmSwapV2 remaining_accounts_info =>
      " \x7b remaining_accounts_info: "
        ++ remaining_accounts_info.debugFmt ++ " \x7d"
  | Swap.RaydiumLaunchlabBuy share_fee_rate =>
      " \x7b share_fee_rate: " ++ toString share_fee_rate ++ " \x7d"
  | Swap.RaydiumLaunchlabSell share_fee_rate =>
      " \x7b share_fee_rate: " ++ toString share_fee_rate ++ " \x7d"
  | Swap.Plasma side => " \x7b side: " ++ side.debugFmt ++ " \x7d"
  | Swap.GoonFi is_bid blacklist_bump =>
      " \x7b is_bid: " ++ fmtBool is_bid
        ++ ", blacklist_bump: " ++ toString blacklist_bump ++ " \x7d"
  | Swap.HumidiFi swap_id is_base_to_quote =>
      " \x7b swap_id: " ++ toString swap_id
        ++ ", is_base_to_quote: " ++ fmtBool is_base_to_quote ++ " \x7d"
  | Swap.TesseraV side => " \x7b side: " ++ side.debugFmt ++ " \x7d"
  | Swap.Heaven a_to_b => " \x7b a_to_b: " ++ fmtBool a_to_b ++ " \x7d"
  | Swap.SolFiV2 is_quote_to_base =>
      " \x7b is_quote_to_base: " ++ fmtBool is_quote_to_base ++ " \x7d"
  | Swap.DefiTuna a_to_b remaining_accounts_info =>
      " \x7b a_to_b: " ++ fmtBool a_to_b ++ ", remaining_accounts_info: "
        ++ fmtOption (remaining_accounts_info.map RemainingAccountsInfo.debugFmt)
        ++ " \x7d"
  | Swap.AlphaQ a_to_b => " \x7b a_to_b: " ++ fmtBool a_to_b ++ " \x7d"
  | Swap.SarosDlmm swap_for_y =>
      " \x7b swap_for_y: " ++ fmtBool swap_for_y ++ " \x7d"
  | Swap.Futarchy side => " \x7b side: " ++ side.debugFmt ++ " \x7d"
  | Swap.WhaleStreet side => " \x7b side: " ++ side.debugFmt ++ " \x7d"
  | Swap.DynamicV1 candidate_swaps =>
      " \x7b candidate_swaps: "
        ++ fmtList (candidate_swaps.map CandidateSwap.debugFmt) ++ " \x7d"
  | Swap.Manifest side => " \x7b side: " ++ side.debugFmt ++ " \x7d"
  | Swap.BisonFi a_to_b => " \x7b a_to_b: " ++ fmtBool a_to_b ++ " \x7d"
  | Swap.HumidiFiV2 swap_id is_base_to_quote =>
      " \x7b swap_id: " ++ toString swap_id
        ++ ", is_base_to_quote: " ++ fmtBool is_base_to_quote ++ " \x7d"
  | Swap.PerenaStar is_mint => " \x7b is_mint: " ++ fmtBool is_mint ++ " \x7d"
  | Swap.GoonFiV2 is_bid => " \x7b is_bid: " ++ fmtBool is_bid ++ " \x7d"
  | _ => ""

/-- Rust `Debug` rendering of a `Swap` value (`{self:?}` in the source):
the variant name followed by its payload rendering. -/
def Swap.debugFmt (s : Swap) : String := s.variantName ++ s.payloadFmt

/-- Whether a `Swap` variant belongs to the candidate subset, i.e. is one of
the variants with a success arm in `TryInto<CandidateSwap>`. -/
def Swap.isCandidate : Swap → Bool
  | Swap.HumidiFi _ _ => true
  | Swap.TesseraV _ => true
  | Swap.HumidiFiV2 _ _ => true
  | _ => false

/-- Embeds `impl TryInto<CandidateSwap> for Swap` (src/swap.rs lines 233-257). -/
def Swap.tryIntoCandidateSwap : Swap → Except String CandidateSwap
  | Swap.HumidiFi swap_id is_base_to_quote =>
      Except.ok (CandidateSwap.HumidiFi swap_id is_base_to_quote)
  | Swap.TesseraV side => Except.ok (CandidateSwap.TesseraV side)
  | Swap.HumidiFiV2 swap_id is_base_to_quote =>
      Except.ok (CandidateSwap.HumidiFiV2 swap_id is_base_to_quote)
  | s => Except.error ("Swap " ++ s.debugFmt ++ " is not a valid candidate swap")

/-! ### Venue contract (the `Amm` trait, src/lib.rs lines 120-201) -/

/-- Embeds `solana_sdk::instruction::AccountMeta` (external): an account reference
in an instruction. -/
structure AccountMeta where
  pubkey : Pubkey
  is_signer : Bool
  is_writable : Bool
deriving DecidableEq, Repr

/-- Embeds `QuoteMintToReferrer` (src/lib.rs line 58): a mint-to-referrer map,
embedded as an association list. -/
abbrev QuoteMintToReferrer := List (Pubkey × Pubkey)

/-- Embeds `SwapParams` (src/lib.rs lines 60-76); the borrowed fields are embedded
by value. -/
structure SwapParams where
  swap_mode : SwapMode
  in_amount : Nat
  out_amount : Nat
  source_mint : Pubkey
  destination_mint : Pubkey
  source_token_account : Pubkey
  destination_token_account : Pubkey
  token_transfer_authority : Pubkey
  open_order_address : Option Pubkey
  quote_mint_to_referrer : Option QuoteMintToReferrer
  jupiter_program_id : Pubkey
  missing_dynamic_accounts_as_default : Bool

/-- Embeds `SwapAndAccountMetas` (src/lib.rs lines 86-89). -/
structure SwapAndAccountMetas where
  swap : Swap
  account_metas : List AccountMeta

/-- Embeds `AmmUserSetup` (src/lib.rs lines 92-95). -/
inductive AmmUserSetup where
  | SerumDexOpenOrdersSetup (market : Pubkey) (program_id : Pubkey)
deriving DecidableEq, Repr

/-- Embeds `AmmContext` (src/lib.rs lines 116-118). -/
structure AmmContext where
  clock_ref : ClockRef

/-- The observable outcome of Rust code that may panic: either a normal
value or a panic carrying its message.  Used to embed the `todo!()` default
body, which panics with `"not yet implemented"`. -/
inductive PanicOr (α : Type) where
  | panicked (msg : String)
  | value (a : α)
deriving DecidableEq, Repr

/-- The `Amm` trait (src/lib.rs lines 120-201), embedded as a structure of
method implementations over a venue state type `S`.  `&mut self` methods
return the updated state; trait-object returns (`Box<dyn Amm>`) become `S`.
Fields with a default value carry the trait's default body, transcribed
from the source; an implementation that does not override them is a
structure value built without those fields. -/
structure Amm (S : Type) where
  from_keyed_account : KeyedAccount → AmmContext → Except String S
  label : S → String
  program_id : S → Pubkey
  key : S → Pubkey
  get_reserve_mints : S → List Pubkey
  get_accounts_to_update : S → List Pubkey
  update : S → AccountMap → Except String S
  quote : S → QuoteParams → Except String Quote
  quote_with_current_token_balance :
      S → QuoteParams → Nat → PanicOr (Except String Quote) :=
    fun _ _ _ => PanicOr.panicked "not yet implemented"
  get_swap_and_account_metas : S → SwapParams → Except String SwapAndAccountMetas
  has_dynamic_accounts : S → Bool := fun _ => false
  requires_update_for_reserve_mints : S → Bool := fun _ => false
  supports_exact_out : S → Bool := fun _ => false
  get_user_setup : S → Option AmmUserSetup := fun _ => none
  clone_amm : S → S
  unidirectional : S → Bool := fun _ => false
  program_dependencies : S → List (Pubkey × String) := fun _ => []
  get_accounts_len : S → Nat := fun _ => 32
  underlying_liquidities : S → Option (List Pubkey) := fun _ => none
  is_active : S → Bool := fun _ => true

/-- The required (default-free) methods of the `Amm` trait: exactly what an
implementation that overrides nothing provides. -/
structure AmmRequired (S : Type) where
  from_keyed_account : KeyedAccount → AmmContext → Except String S
  label : S → String
  program_id : S → Pubkey
  key : S → Pubkey
  get_reserve_mints : S → List Pubkey
  get_accounts_to_update : S → List Pubkey
  update : S → AccountMap → Except String S
  quote : S → QuoteParams → Except String Quote
  get_swap_and_account_metas : S → SwapParams → Except String SwapAndAccountMetas
  clone_amm : S → S

/-- An `Amm` implementation that overrides none of the optional methods:
the required methods are supplied and every defaulted field keeps the
trait's default body. -/
def Amm.ofRequired {S : Type} (r : AmmRequired S) : Amm S :=
  { from_keyed_account := r.from_keyed_account
    label := r.label
    program_id := r.program_id
    key := r.key
    get_reserve_mints := r.get_reserve_mints
    get_accounts_to_update := r.get_accounts_to_update
    update := r.update
    quote := r.quote
    get_swap_and_account_metas := r.get_swap_and_account_metas
    clone_amm := r.clone_amm }

/-! ### Claim theorems -/

/-- Claim C1 (amended): `Market::from(KeyedAccount)` maps `key` to `pubkey`,
`account.owner` to `owner` and preserves `params`; it drops the raw account
bytes and also the lamports, the executable flag and the rent epoch. -/
theorem market_from_preserves_key_owner_params (ka : KeyedAccount) :
    (Market.fromKeyedAccount ka).pubkey = ka.key ∧
    (Market.fromKeyedAccount ka).owner = ka.account.owner ∧
    (Market.fromKeyedAccount ka).params = ka.params :=
  ⟨rfl, rfl, rfl⟩

/-- Claim C1 counterexample: the conversion does not drop only the raw
account bytes — two `KeyedAccount`s with identical bytes but different
lamports map to the same `Market`, so the lamport balance (a piece of the
input other than the raw bytes) is not preserved in the output. -/
theorem market_from_drops_lamports :
    (⟨⟨[1]⟩, ⟨1000, [], ⟨[2]⟩, false, 0⟩, none⟩ : KeyedAccount).account.data =
      (⟨⟨[1]⟩, ⟨2000, [], ⟨[2]⟩, false, 0⟩, none⟩ : KeyedAccount).account.data ∧
    (⟨⟨[1]⟩, ⟨1000, [], ⟨[2]⟩, false, 0⟩, none⟩ : KeyedAccount).account.lamports ≠
      (⟨⟨[1]⟩, ⟨2000, [], ⟨[2]⟩, false, 0⟩, none⟩ : KeyedAccount).account.lamports ∧
    Market.fromKeyedAccount ⟨⟨[1]⟩, ⟨1000, [], ⟨[2]⟩, false, 0⟩, none⟩ =
      Market.fromKeyedAccount ⟨⟨[1]⟩, ⟨2000, [], ⟨[2]⟩, false, 0⟩, none⟩ := by
  decide

/-- Claim C2: for every `Swap` outside the candidate subset the conversion
to `CandidateSwap` fails with an error naming the offending variant (the
message embeds the `Debug` rendering, which begins with the variant name)
and never returns a `CandidateSwap`. -/
theorem swap_tryInto_fails_outside_candidates (s : Swap)
    (h : s.isCandidate = false) :
    s.tryIntoCandidateSwap =
      Except.error ("Swap " ++ s.debugFmt ++ " is not a valid candidate swap") ∧
    (∃ t, s.debugFmt = s.variantName ++ t) ∧
    ∀ c : CandidateSwap, s.tryIntoCandidateSwap ≠ Except.ok c := by
  refine ⟨?_, ⟨s.payloadFmt, rfl⟩, ?_⟩
  · cases s <;> first | rfl | exact Bool.noConfusion h
  · intro c hc
    cases s <;> first | exact Bool.noConfusion h | exact Except.noConfusion hc

/-- Claim C2 witness: `Swap::Saber` is outside the subset and fails with the
message naming it. -/
theorem swap_tryInto_fails_outside_candidates_witness :
    Swap.isCandidate Swap.Saber = false ∧
    Swap.tryIntoCandidateSwap Swap.Saber =
      Except.error "Swap Saber is not a valid candidate swap" :=
  ⟨rfl, (swap_tryInto_fails_outside_candidates Swap.Saber rfl).1⟩

/-- Claim C3: for every `Swap` inside the candidate subset (`HumidiFi`,
`TesseraV`, `HumidiFiV2`) the conversion succeeds and every payload field is
preserved exactly. -/
theorem swap_tryInto_preserves_candidates (swap_id : Nat)
    (is_base_to_quote : Bool) (side : Side) :
    Swap.tryIntoCandidateSwap (Swap.HumidiFi swap_id is_base_to_quote) =
      Except.ok (CandidateSwap.HumidiFi swap_id is_base_to_quote) ∧
    Swap.tryIntoCandidateSwap (Swap.TesseraV side) =
      Except.ok (CandidateSwap.TesseraV side) ∧
    Swap.tryIntoCandidateSwap (Swap.HumidiFiV2 swap_id is_base_to_quote) =
      Except.ok (CandidateSwap.HumidiFiV2 swap_id is_base_to_quote) :=
  ⟨rfl, rfl, rfl⟩

/-- Claim C4: for every valid `KeyedAccount`, the transport round trip
`KeyedAccount → KeyedUiAccount → KeyedAccount` succeeds and returns the
original value (key, account bytes, owner and the other account fields, and
params all preserved). -/
theorem keyedAccount_transport_roundTrip (ka : KeyedAccount) (h : ka.wf) :
    KeyedAccount.tryFromKeyedUiAccount (KeyedUiAccount.fromKeyedAccount ka) =
      Except.ok ka :=
  keyedAccount_roundTrip ka h

/-- Claim C4 witness: a concrete well-formed `KeyedAccount` round-trips. -/
theorem keyedAccount_transport_roundTrip_witness :
    KeyedAccount.tryFromKeyedUiAccount (KeyedUiAccount.fromKeyedAccount
      ⟨⟨List.replicate 32 1⟩, ⟨7, [0, 255, 64], ⟨List.replicate 32 2⟩, true, 3⟩,
        some ⟨"cfg"⟩⟩) =
      Except.ok ⟨⟨List.replicate 32 1⟩,
        ⟨7, [0, 255, 64], ⟨List.replicate 32 2⟩, true, 3⟩, some ⟨"cfg"⟩⟩ :=
  keyedAccount_transport_roundTrip _ (by decide)

/-- Claim C5: a `ClockRef` built from the reading `{slot=10, epoch=2,
unix_timestamp=1000, epoch_start_timestamp=900, leader_schedule_epoch=3}`
exposes exactly those five values, and after `update` with `{slot=11,
epoch=2, unix_timestamp=1001, epoch_start_timestamp=900,
leader_schedule_epoch=3}` the observable `slot` and `unix_timestamp` become
11 and 1001 while the other three fields are observably unchanged. -/
theorem clockRef_from_and_update_observation :
    (ClockRef.fromClock ⟨10, 900, 2, 3, 1000⟩).slot = 10 ∧
    (ClockRef.fromClock ⟨10, 900, 2, 3, 1000⟩).epoch = 2 ∧
    (ClockRef.fromClock ⟨10, 900, 2, 3, 1000⟩).unix_timestamp = 1000 ∧
    (ClockRef.fromClock ⟨10, 900, 2, 3, 1000⟩).epoch_start_timestamp = 900 ∧
    (ClockRef.fromClock ⟨10, 900, 2, 3, 1000⟩).leader_schedule_epoch = 3 ∧
    ((ClockRef.fromClock ⟨10, 900, 2, 3, 1000⟩).update
        ⟨11, 900, 2, 3, 1001⟩).slot = 11 ∧
    ((ClockRef.fromClock ⟨10, 900, 2, 3, 1000⟩).update
        ⟨11, 900, 2, 3, 1001⟩).unix_timestamp = 1001 ∧
    ((ClockRef.fromClock ⟨10, 900, 2, 3, 1000⟩).update ⟨11, 900, 2, 3, 1001⟩).epoch =
      (ClockRef.fromClock ⟨10, 900, 2, 3, 1000⟩).epoch ∧
    ((ClockRef.fromClock ⟨10, 900, 2, 3, 1000⟩).update
        ⟨11, 900, 2, 3, 1001⟩).epoch_start_timestamp =
      (ClockRef.fromClock ⟨10, 900, 2, 3, 1000⟩).epoch_start_timestamp ∧
    ((ClockRef.fromClock ⟨10, 900, 2, 3, 1000⟩).update
        ⟨11, 900, 2, 3, 1001⟩).leader_schedule_epoch =
      (ClockRef.fromClock ⟨10, 900, 2, 3, 1000⟩).leader_schedule_epoch := by
  decide

/-- Claim C6: `SwapMode::from_str` accepts exactly `"ExactIn"` and
`"ExactOut"`, and any other string yields an error whose message names the
invalid input. -/
theorem swapMode_fromStr_spec :
    SwapMode.fromStr "ExactIn" = Except.ok SwapMode.ExactIn ∧
    SwapMode.fromStr "ExactOut" = Except.ok SwapMode.ExactOut ∧
    ∀ s : String, s ≠ "ExactIn" → s ≠ "ExactOut" →
      SwapMode.fromStr s = Except.error (s ++ " is not a valid SwapMode") := by
  refine ⟨rfl, rfl, fun s h1 h2 => ?_⟩
  unfold SwapMode.fromStr
  split
  · exact absurd rfl h1
  · exact absurd rfl h2
  · rfl

/-- Claim C6 witness: the spec's failing inputs `"exactin"` and `""` fail
with the descriptive message. -/
theorem swapMode_fromStr_spec_witness :
    SwapMode.fromStr "exactin" =
      Except.error "exactin is not a valid SwapMode" ∧
    SwapMode.fromStr "" = Except.error " is not a valid SwapMode" :=
  ⟨swapMode_fromStr_spec.2.2 "exactin" (by decide) (by decide),
    swapMode_fromStr_spec.2.2 "" (by decide) (by decide)⟩

/-- Claim C7: a lookup of a key absent from the account map fails, on both
`try_get_account_data` and `try_get_account_data_and_owner`, with an error
naming the missing key; for a present key the former returns the stored
account's data and the latter the data together with the owner. -/
theorem try_get_account_data_spec (account_map : AccountMap) (address : Pubkey) :
    (AccountMap.get account_map address = none →
      try_get_account_data account_map address =
        Except.error ("Could not find address: " ++ pubkeyToString address) ∧
      try_get_account_data_and_owner account_map address =
        Except.error ("Could not find address: " ++ pubkeyToString address)) ∧
    (∀ account : Account, AccountMap.get account_map address = some account →
      try_get_account_data account_map address = Except.ok account.data ∧
      try_get_account_data_and_owner account_map address =
        Except.ok (account.data, account.owner)) := by
  constructor
  · intro h
    unfold try_get_account_data try_get_account_data_and_owner
    rw [h]
    exact ⟨rfl, rfl⟩
  · intro account h
    unfold try_get_account_data try_get_account_data_and_owner
    rw [h]
    exact ⟨rfl, rfl⟩

/-- Claim C7 witness: on the one-entry map with key `[1]`, the absent key
`[3]` fails on both forms and the present key `[1]` succeeds on both. -/
theorem try_get_account_data_spec_witness :
    try_get_account_data [(⟨[1]⟩, ⟨5, [9], ⟨[2]⟩, false, 0⟩)] ⟨[3]⟩ =
      Except.error ("Could not find address: " ++ pubkeyToString ⟨[3]⟩) ∧
    try_get_account_data_and_owner [(⟨[1]⟩, ⟨5, [9], ⟨[2]⟩, false, 0⟩)] ⟨[3]⟩ =
      Except.error ("Could not find address: " ++ pubkeyToString ⟨[3]⟩) ∧
    try_get_account_data [(⟨[1]⟩, ⟨5, [9], ⟨[2]⟩, false, 0⟩)] ⟨[1]⟩ =
      Except.ok [9] ∧
    try_get_account_data_and_owner [(⟨[1]⟩, ⟨5, [9], ⟨[2]⟩, false, 0⟩)] ⟨[1]⟩ =
      Except.ok ([9], ⟨[2]⟩) := by
  have habsent :=
    (try_get_account_data_spec [(⟨[1]⟩, ⟨5, [9], ⟨[2]⟩, false, 0⟩)] ⟨[3]⟩).1
      (by decide)
  have hpresent :=
    (try_get_account_data_spec [(⟨[1]⟩, ⟨5, [9], ⟨[2]⟩, false, 0⟩)] ⟨[1]⟩).2
      ⟨5, [9], ⟨[2]⟩, false, 0⟩ (by decide)
  exact ⟨habsent.1, habsent.2, hpresent.1, hpresent.2⟩

/-- Claim C8: an `Amm` implementation that overrides none of the optional
methods reports `has_dynamic_accounts`, `requires_update_for_reserve_mints`,
`supports_exact_out` and `unidirectional` as `false`, `is_active` as `true`,
`get_user_setup` and `underlying_liquidities` as `None`,
`program_dependencies` as the empty list, and `get_accounts_len` as 32. -/
theorem amm_default_capabilities {S : Type} (r : AmmRequired S) (s : S) :
    (Amm.ofRequired r).has_dynamic_accounts s = false ∧
    (Amm.ofRequired r).requires_update_for_reserve_mints s = false ∧
    (Amm.ofRequired r).supports_exact_out s = false ∧
    (Amm.ofRequired r).unidirectional s = false ∧
    (Amm.ofRequired r).is_active s = true ∧
    (Amm.ofRequired r).get_user_setup s = none ∧
    (Amm.ofRequired r).underlying_liquidities s = none ∧
    (Amm.ofRequired r).program_dependencies s = [] ∧
    (Amm.ofRequired r).get_accounts_len s = 32 :=
  ⟨rfl, rfl, rfl, rfl, rfl, rfl, rfl, rfl, rfl⟩

/-- Claim C9 (amended): the `QuoteParams` record consists of exactly the
four fields `amount`, `input_mint`, `output_mint` and `swap_mode`; there is
no `fee_mode` field, and the four fields determine the value. -/
theorem quoteParams_exactly_four_fields (p : QuoteParams) :
    QuoteParams.fieldNames = ["amount", "input_mint", "output_mint", "swap_mode"] ∧
    p = ⟨p.amount, p.input_mint, p.output_mint, p.swap_mode⟩ :=
  ⟨rfl, rfl⟩

/-- Claim C9 counterexample: the field list of `QuoteParams` is not the
five-field list claimed (there is no `fee_mode`). -/
theorem quoteParams_fieldNames_ne_claimed_five :
    QuoteParams.fieldNames ≠
      ["amount", "input_mint", "output_mint", "swap_mode", "fee_mode"] := by
  decide

/-- Claim C10: for an `Amm` implementation that does not override it, the
default `quote_with_current_token_balance` panics (the `todo!()` body, which
panics with `"not yet implemented"`) on every input, and never produces a
`Quote` nor an error value. -/
theorem amm_default_quote_with_current_token_balance_panics {S : Type}
    (r : AmmRequired S) (s : S) (quote_params : QuoteParams)
    (current_token_balance : Nat) :
    (Amm.ofRequired r).quote_with_current_token_balance s quote_params
        current_token_balance = PanicOr.panicked "not yet implemented" ∧
    (∀ q : Quote,
      (Amm.ofRequired r).quote_with_current_token_balance s quote_params
          current_token_balance ≠ PanicOr.value (Except.ok q)) ∧
    (∀ e : String,
      (Amm.ofRequired r).quote_with_current_token_balance s quote_params
          current_token_balance ≠ PanicOr.value (Except.error e)) :=
  ⟨rfl, fun _ h => PanicOr.noConfusion h, fun _ h => PanicOr.noConfusion h⟩

end JupAmm
